import Mathlib

/-!
Verification of the authentication core of the foretrust-api repository
(`src/auth.py`, `src/main.py`, `src/models.py`).

The auth core is shallowly embedded:
* Python strings are Lean `String`s; byte strings are `List Nat`.
* The external bcrypt primitive is modelled by an abstract core function
  `bcryptCore : Nat → Nat → List Nat → List Nat` (rounds → salt → input → hash body),
  over which the wrapping code in `auth.py` is parameterized.  `bcrypt.gensalt`
  draws fresh randomness; this is modelled by an explicit `entropy : Nat` argument.
  A bcrypt digest string embeds its cost factor and salt; malformed digest
  strings are a separate constructor.
* JWTs (python-jose, HS256) are modelled symbolically: a well-formed signed
  token records its payload and the key it was signed with; `jwt.decode`
  succeeds only when the presented key equals the signing key and the token is
  unexpired, raising `JWTErr` otherwise.  Time is a `Nat` of seconds.
* The SQLAlchemy user table is a `List PyUser`; `db.query(User).filter(...).first()`
  is `List.find?`.
* `HTTPException` is `HTTPError`; raising is returning `Except.error`.
-/

/-- Bytes of a character under UTF-8, as in Python's `str.encode('utf-8')`. -/
def utf8EncodeChar (c : Char) : List Nat :=
  let n := c.toNat
  if n < 0x80 then [n]
  else if n < 0x800 then
    [0xC0 ||| (n >>> 6), 0x80 ||| (n &&& 0x3F)]
  else if n < 0x10000 then
    [0xE0 ||| (n >>> 12), 0x80 ||| ((n >>> 6) &&& 0x3F), 0x80 ||| (n &&& 0x3F)]
  else
    [0xF0 ||| (n >>> 18), 0x80 ||| ((n >>> 12) &&& 0x3F),
     0x80 ||| ((n >>> 6) &&& 0x3F), 0x80 ||| (n &&& 0x3F)]

/-- Python `password.encode('utf-8')`. -/
def utf8Encode (s : String) : List Nat :=
  (s.data.map utf8EncodeChar).flatten

/-- `auth.py` line 28: truncate password to at most 72 bytes for bcrypt. -/
def truncate_to_72_bytes (password : String) : List Nat :=
  let encoded := utf8Encode password
  if encoded.length > 72 then encoded.take 72 else encoded

/-- A parsed bcrypt digest: cost factor, embedded salt, and hash body
(the `$2b$rounds$saltbody` string layout, parsed). -/
structure BcryptDigest where
  rounds : Nat
  salt : Nat
  body : List Nat
deriving DecidableEq, Repr

/-- A stored digest string: either a well-formed bcrypt digest or a
malformed / corrupt string that the bcrypt primitive cannot parse. -/
inductive DigestStr where
  | wellFormed (d : BcryptDigest)
  | malformed (raw : String)
deriving DecidableEq, Repr

/-- Errors raised by the bcrypt library (invalid salt/digest, oversized input);
callers of the raw primitive see them as exceptions. -/
inductive HashErr where
  | invalidSalt
  | passwordTooLong
deriving DecidableEq, Repr

/-- The bcrypt library's `hashpw(password, salt)`: raises on input longer than
72 bytes, otherwise produces a digest embedding the salt and cost factor.
`bcryptCore` abstracts the one-way Blowfish-based transform. -/
def bcrypt_hashpw (bcryptCore : Nat → Nat → List Nat → List Nat)
    (password : List Nat) (rounds salt : Nat) : Except HashErr BcryptDigest :=
  if password.length > 72 then .error .passwordTooLong
  else .ok ⟨rounds, salt, bcryptCore rounds salt password⟩

/-- The bcrypt library's `checkpw(password, digest)`: parses the digest,
recomputes with the embedded salt and cost, and compares; raises on a
malformed digest or oversized input. -/
def bcrypt_checkpw (bcryptCore : Nat → Nat → List Nat → List Nat)
    (password : List Nat) (digest : DigestStr) : Except HashErr Bool :=
  match digest with
  | .malformed _ => .error .invalidSalt
  | .wellFormed d =>
    if password.length > 72 then .error .passwordTooLong
    else .ok (bcryptCore d.rounds d.salt password == d.body)

/-- `auth.py` lines 35–46: verify a password against a bcrypt digest,
returning `false` on any exception from the primitive. -/
def verify_password (bcryptCore : Nat → Nat → List Nat → List Nat)
    (plain_password : String) (hashed_password : DigestStr) : Bool :=
  let truncated_password := truncate_to_72_bytes plain_password
  match bcrypt_checkpw bcryptCore truncated_password hashed_password with
  | .ok b => b
  | .error _ => false

/-- `auth.py` lines 48–53: hash a password with bcrypt at 12 rounds.
`entropy` models the randomness drawn by `bcrypt.gensalt(rounds=12)`.
The truncation guarantees `hashpw` cannot raise, so the result is total. -/
def get_password_hash (bcryptCore : Nat → Nat → List Nat → List Nat)
    (password : String) (entropy : Nat) : DigestStr :=
  let truncated_password := truncate_to_72_bytes password
  match bcrypt_hashpw bcryptCore truncated_password 12 entropy with
  | .ok d => .wellFormed d
  | .error _ => .malformed ""

/-- The user row of `models.py` (`users` table). -/
structure PyUser where
  id : Nat
  username : String
  email : String
  hashed_password : DigestStr
  is_active : Bool
  is_admin : Bool
  created_at : Nat
deriving DecidableEq, Repr

/-- `auth.py` line 12. -/
def SECRET_KEY : String := "your-secret-key-change-this-in-production"

/-- `auth.py` line 13. -/
def REFRESH_SECRET_KEY : String := "your-refresh-secret-key-change-this"

/-- `auth.py` line 15, in minutes. -/
def ACCESS_TOKEN_EXPIRE_MINUTES : Nat := 15

/-- `auth.py` line 16, in days. -/
def REFRESH_TOKEN_EXPIRE_DAYS : Nat := 7

/-- The decoded JWT claims used by this code: `sub`, `type` (both optional
dict entries, read with `payload.get`) and the `exp` timestamp. -/
structure JWTPayload where
  sub : Option String
  type : Option String
  exp : Nat
deriving DecidableEq, Repr

/-- A bearer-token string, modelled symbolically: a well-formed JWS records
its payload and signing key; anything else is garbage (the empty string is
`garbage ""`). -/
inductive JWTToken where
  | signed (payload : JWTPayload) (key : String)
  | garbage (raw : String)
deriving DecidableEq, Repr

/-- python-jose decode failures (all subclasses of `JWTError`). -/
inductive JWTErr where
  | signatureMismatch
  | malformedStructure
  | expired
deriving DecidableEq, Repr

/-- `jwt.encode(claims, key, algorithm=HS256)`. -/
def jwt_encode (payload : JWTPayload) (key : String) : JWTToken :=
  .signed payload key

/-- `jwt.decode(token, key, algorithms=[HS256])` at time `now`:
verifies the signature against `key`, then the `exp` claim. -/
def jwt_decode (token : JWTToken) (key : String) (now : Nat) :
    Except JWTErr JWTPayload :=
  match token with
  | .garbage _ => .error .malformedStructure
  | .signed p k =>
    if k = key then
      if p.exp ≤ now then .error .expired else .ok p
    else .error .signatureMismatch

/-- `auth.py` lines 55–65: create an access token signed with `SECRET_KEY`,
with `type = "access"` and expiry `now + expires_delta` (default 15 minutes).
The `data` dict is `{"sub": username}` at every call site, modelled by the
optional `sub` claim; `expires_delta` is in seconds. -/
def create_access_token (sub : Option String) (now : Nat)
    (expires_delta : Option Nat) : JWTToken :=
  let expire := match expires_delta with
    | some d => now + d
    | none => now + ACCESS_TOKEN_EXPIRE_MINUTES * 60
  jwt_encode ⟨sub, some "access", expire⟩ SECRET_KEY

/-- `auth.py` lines 67–77: create a refresh token signed with
`REFRESH_SECRET_KEY`, with `type = "refresh"` and expiry
`now + expires_delta` (default 7 days). -/
def create_refresh_token (sub : Option String) (now : Nat)
    (expires_delta : Option Nat) : JWTToken :=
  let expire := match expires_delta with
    | some d => now + d
    | none => now + REFRESH_TOKEN_EXPIRE_DAYS * 86400
  jwt_encode ⟨sub, some "refresh", expire⟩ REFRESH_SECRET_KEY

/-- `auth.py` lines 79–81: `db.query(User).filter(User.username == username).first()`. -/
def get_user_by_username (db : List PyUser) (username : String) : Option PyUser :=
  db.find? (fun u => u.username == username)

/-- `auth.py` lines 83–90: authenticate a user; returns `none` both when the
username does not resolve and when the password fails verification. -/
def authenticate_user (bcryptCore : Nat → Nat → List Nat → List Nat)
    (db : List PyUser) (username password : String) : Option PyUser :=
  match get_user_by_username db username with
  | none => none
  | some user =>
    if ¬ verify_password bcryptCore password user.hashed_password then none
    else some user

/-- `HTTPException(status_code, detail, headers)`. -/
structure HTTPError where
  status_code : Nat
  detail : String
  headers : List (String × String)
deriving DecidableEq, Repr

/-- `auth.py` lines 97–101: the single 401 raised by `get_current_user` on
every decode / claim / lookup failure. -/
def credentials_exception : HTTPError :=
  ⟨401, "Could not validate credentials", [("WWW-Authenticate", "Bearer")]⟩

/-- `auth.py` lines 125–128: the single 401 raised by
`get_current_user_from_refresh_token` on every failure. -/
def refresh_credentials_exception : HTTPError :=
  ⟨401, "Could not validate refresh token", []⟩

/-- `auth.py` lines 92–118: resolve the current user from an access token.
Decodes with `SECRET_KEY`; raises `credentials_exception` on `JWTError`,
missing `sub`, `type ≠ "access"`, or unresolvable user. -/
def get_current_user (token : JWTToken) (db : List PyUser) (now : Nat) :
    Except HTTPError PyUser :=
  match jwt_decode token SECRET_KEY now with
  | .error _ => .error credentials_exception
  | .ok payload =>
    let username := payload.sub
    let token_type := payload.type
    if username = none ∨ token_type ≠ some "access" then
      .error credentials_exception
    else
      match username with
      | none => .error credentials_exception
      | some u =>
        match get_user_by_username db u with
        | none => .error credentials_exception
        | some user => .ok user

/-- `auth.py` lines 120–145: resolve the current user from a refresh token.
Decodes with `REFRESH_SECRET_KEY`; raises `refresh_credentials_exception` on
`JWTError`, missing `sub`, `type ≠ "refresh"`, or unresolvable user. -/
def get_current_user_from_refresh_token (token : JWTToken) (db : List PyUser)
    (now : Nat) : Except HTTPError PyUser :=
  match jwt_decode token REFRESH_SECRET_KEY now with
  | .error _ => .error refresh_credentials_exception
  | .ok payload =>
    let username := payload.sub
    let token_type := payload.type
    if username = none ∨ token_type ≠ some "refresh" then
      .error refresh_credentials_exception
    else
      match username with
      | none => .error refresh_credentials_exception
      | some u =>
        match get_user_by_username db u with
        | none => .error refresh_credentials_exception
        | some user => .ok user

/-- `auth.py` lines 147–153: gate every protected endpoint on `is_active`. -/
def get_current_active_user (token : JWTToken) (db : List PyUser) (now : Nat) :
    Except HTTPError PyUser :=
  match get_current_user token db now with
  | .error e => .error e
  | .ok current_user =>
    if ¬ current_user.is_active then
      .error ⟨400, "Inactive user", []⟩
    else .ok current_user

/-- The `Token` response schema of `main.py` lines 87–90. -/
structure TokenPair where
  access_token : JWTToken
  refresh_token : JWTToken
  token_type : String
deriving DecidableEq, Repr

/-- `main.py` lines 197–228, the `/refresh` endpoint: validates the refresh
token, then mints a fresh access/refresh pair for the resolved user.  The
empty string fails the `if not refresh_token` guard with a 400. -/
def refresh_endpoint (token : JWTToken) (db : List PyUser) (now : Nat) :
    Except HTTPError TokenPair :=
  if token = .garbage "" then
    .error ⟨400, "Refresh token is required", []⟩
  else
    match get_current_user_from_refresh_token token db now with
    | .error e => .error e
    | .ok user =>
      let new_access_token :=
        create_access_token (some user.username) now
          (some (ACCESS_TOKEN_EXPIRE_MINUTES * 60))
      let new_refresh_token :=
        create_refresh_token (some user.username) now
          (some (REFRESH_TOKEN_EXPIRE_DAYS * 86400))
      .ok ⟨new_access_token, new_refresh_token, "bearer"⟩

/-- `main.py` lines 256–271, the `/change-password` endpoint, as a state
transformer on the current user's row: returns the HTTP outcome together with
the row after the request (unchanged when the old password fails). -/
def change_password (bcryptCore : Nat → Nat → List Nat → List Nat)
    (current_user : PyUser) (current_password new_password : String)
    (entropy : Nat) : Except HTTPError String × PyUser :=
  if ¬ verify_password bcryptCore current_password current_user.hashed_password then
    (.error ⟨400, "Incorrect current password", []⟩, current_user)
  else
    (.ok "Password changed successfully",
     { current_user with
        hashed_password := get_password_hash bcryptCore new_password entropy })

/-- A concrete instance of the abstract bcrypt transform, used to evaluate
the development at concrete inputs. -/
def sampleCore (rounds salt : Nat) (input : List Nat) : List Nat :=
  rounds :: salt :: input

/-- A one-row user table used to evaluate the development: an admin whose
stored digest is the hash of `"admin123"` (`auth.py` line 162). -/
def sampleAdmin : PyUser :=
  ⟨1, "admin", "admin@example.com", get_password_hash sampleCore "admin123" 0,
   true, true, 0⟩

/-- `main.py` lines 230–238, the protected `/me` endpoint: the route body
only returns the user produced by the `get_current_active_user` gate, so its
outcome is exactly the gate's outcome. -/
def get_current_user_info (token : JWTToken) (db : List PyUser) (now : Nat) :
    Except HTTPError PyUser :=
  get_current_active_user token db now

/-- A deactivated user row, used to evaluate the active-user gate. -/
def inactiveUser : PyUser :=
  ⟨2, "bob", "bob@example.com", get_password_hash sampleCore "bobpw" 1,
   false, false, 0⟩

/-- 73-byte password: 72 `'a'` bytes then `'b'`. -/
def longPasswordA : String := String.mk (List.replicate 72 'a' ++ ['b'])

/-- 73-byte password: 72 `'a'` bytes then `'c'`. -/
def longPasswordB : String := String.mk (List.replicate 72 'a' ++ ['c'])

/-- The explicit 72-byte truncation equals `take 72` of the encoding. -/
theorem truncate_eq_take (p : String) :
    truncate_to_72_bytes p = (utf8Encode p).take 72 := by
  unfold truncate_to_72_bytes
  by_cases h : (utf8Encode p).length > 72
  · simp [h]
  · simp only [h, if_false]
    exact (List.take_of_length_le (by omega)).symm

/-- Truncated passwords are at most 72 bytes. -/
theorem truncate_length_le (p : String) :
    (truncate_to_72_bytes p).length ≤ 72 := by
  rw [truncate_eq_take]
  exact List.length_take_le 72 (utf8Encode p)

/-- C1: for every password `p` (and any bcrypt transform and any salt drawn
by `gensalt`), verifying `p` against the digest produced by hashing `p`
returns `true`: `verify_password p (get_password_hash p) = true`. -/
theorem c1_verify_of_hash (bcryptCore : Nat → Nat → List Nat → List Nat)
    (p : String) (entropy : Nat) :
    verify_password bcryptCore p (get_password_hash bcryptCore p entropy) = true := by
  have hle : ¬ (truncate_to_72_bytes p).length > 72 := by
    have := truncate_length_le p; omega
  simp [verify_password, get_password_hash, bcrypt_hashpw, bcrypt_checkpw, hle]

/-- C2: the two signing secrets are distinct, and decoding any access token
under the refresh secret (or any refresh token under the access secret) fails
with a signature-mismatch `JWTError`, regardless of the payload's subject,
issue time, lifetime, or the time of decoding. -/
theorem c2_cross_secret_decode_fails :
    SECRET_KEY ≠ REFRESH_SECRET_KEY ∧
    (∀ (sub : Option String) (issued : Nat) (delta : Option Nat) (t : Nat),
      jwt_decode (create_access_token sub issued delta)
        REFRESH_SECRET_KEY t = .error .signatureMismatch) ∧
    (∀ (sub : Option String) (issued : Nat) (delta : Option Nat) (t : Nat),
      jwt_decode (create_refresh_token sub issued delta)
        SECRET_KEY t = .error .signatureMismatch) := by
  refine ⟨by decide, ?_, ?_⟩
  · intro sub issued delta t
    simp [create_access_token, jwt_encode, jwt_decode,
      show SECRET_KEY ≠ REFRESH_SECRET_KEY from by decide]
  · intro sub issued delta t
    simp [create_refresh_token, jwt_encode, jwt_decode,
      show ¬ REFRESH_SECRET_KEY = SECRET_KEY from by decide]

/-- C5: `verify_password` is fail-closed: whenever the bcrypt primitive
raises (malformed digest, corrupt salt, oversized input, any internal
error), `verify_password` returns `false` instead of propagating the error,
so a malformed digest is indistinguishable from a failed verification. -/
theorem c5_verify_fail_closed (bcryptCore : Nat → Nat → List Nat → List Nat)
    (p : String) (d : DigestStr) (e : HashErr)
    (h : bcrypt_checkpw bcryptCore (truncate_to_72_bytes p) d = .error e) :
    verify_password bcryptCore p d = false := by
  simp only [verify_password]
  rw [h]

/-- Witness for C5: verification of `"x"` against the corrupt digest string
`"not-a-bcrypt-digest"` yields `false`. -/
theorem c5_verify_fail_closed_witness :
    verify_password sampleCore "x" (.malformed "not-a-bcrypt-digest") = false :=
  c5_verify_fail_closed sampleCore "x" (.malformed "not-a-bcrypt-digest")
    .invalidSalt rfl

/-- Counterexample to C3: wrong-token-type failures are NOT surfaced as a
distinct `WrongTokenType` error.  A genuine refresh token presented to the
access-token resolver, a correctly-signed unexpired token whose type tag is
`"refresh"` (the explicitly-checked path), and a structurally garbage token
all produce the very same `credentials_exception` (401, "Could not validate
credentials"), so the wrong-type failure is indistinguishable from
signature/structure/expiry failures. -/
theorem c3_counterexample :
    get_current_user (create_refresh_token (some "admin") 0 (some 604800))
        [sampleAdmin] 0
      = .error credentials_exception ∧
    get_current_user (.signed ⟨some "admin", some "refresh", 604800⟩ SECRET_KEY)
        [sampleAdmin] 0
      = .error credentials_exception ∧
    get_current_user (.garbage "corrupt") [sampleAdmin] 0
      = .error credentials_exception :=
  ⟨rfl, rfl, rfl⟩

/-- C3 amended: a structurally valid, correctly signed, unexpired token whose
type tag does not match the expected type is rejected, but with the same
single 401 exception that signature, structure and expiry failures produce
(`credentials_exception` for the access path, `refresh_credentials_exception`
for the refresh path) — no distinct `WrongTokenType` error exists. -/
theorem c3_amended_same_error (p q : JWTPayload) (db : List PyUser) (now : Nat)
    (hp : p.type ≠ some "access") (hpe : now < p.exp)
    (hq : q.type ≠ some "refresh") (hqe : now < q.exp) :
    get_current_user (.signed p SECRET_KEY) db now
      = .error credentials_exception ∧
    get_current_user (.garbage "") db now
      = .error credentials_exception ∧
    get_current_user_from_refresh_token (.signed q REFRESH_SECRET_KEY) db now
      = .error refresh_credentials_exception ∧
    get_current_user_from_refresh_token (.garbage "") db now
      = .error refresh_credentials_exception := by
  refine ⟨?_, rfl, ?_, rfl⟩
  · simp [get_current_user, jwt_decode, Nat.not_le.mpr hpe, hp]
  · simp [get_current_user_from_refresh_token, jwt_decode,
      Nat.not_le.mpr hqe, hq]

/-- Witness for the amended C3: a signed, unexpired token carrying
`type = "refresh"` is rejected by the access-token resolver with exactly
`credentials_exception`. -/
theorem c3_amended_same_error_witness :
    get_current_user (.signed ⟨some "admin", some "refresh", 900⟩ SECRET_KEY)
        [] 0
      = .error credentials_exception :=
  (c3_amended_same_error ⟨some "admin", some "refresh", 900⟩
      ⟨some "admin", some "access", 900⟩ [] 0
      (by decide) (by decide) (by decide) (by decide)).1

/-- C4: `authenticate_user` returns the identical failure value (`None`)
whether the username does not resolve or the username resolves but the
password fails verification; the caller receives no distinguishing signal. -/
theorem c4_uniform_failure (bcryptCore : Nat → Nat → List Nat → List Nat)
    (db : List PyUser) (u1 p1 u2 p2 : String) (user : PyUser)
    (h1 : get_user_by_username db u1 = none)
    (h2 : get_user_by_username db u2 = some user)
    (h3 : verify_password bcryptCore p2 user.hashed_password = false) :
    authenticate_user bcryptCore db u1 p1 = none ∧
    authenticate_user bcryptCore db u2 p2 = none ∧
    authenticate_user bcryptCore db u1 p1
      = authenticate_user bcryptCore db u2 p2 := by
  have a1 : authenticate_user bcryptCore db u1 p1 = none := by
    simp [authenticate_user, h1]
  have a2 : authenticate_user bcryptCore db u2 p2 = none := by
    simp [authenticate_user, h2, h3]
  exact ⟨a1, a2, a1.trans a2.symm⟩

/-- Witness for C4: an unknown username and a known username with a wrong
password both authenticate to `none`. -/
theorem c4_uniform_failure_witness :
    authenticate_user sampleCore [sampleAdmin] "ghost" "anything" = none ∧
    authenticate_user sampleCore [sampleAdmin] "admin" "wrongpass" = none ∧
    authenticate_user sampleCore [sampleAdmin] "ghost" "anything"
      = authenticate_user sampleCore [sampleAdmin] "admin" "wrongpass" :=
  c4_uniform_failure sampleCore [sampleAdmin] "ghost" "anything" "admin"
    "wrongpass" sampleAdmin (by decide) (by decide) (by decide)

/-- C6: `change_password` leaves the stored digest unchanged and fails with
a 400 when the old password does not verify; the digest is overwritten with
`get_password_hash new_password` exactly when the old password verifies. -/
theorem c6_change_password_guard (bcryptCore : Nat → Nat → List Nat → List Nat)
    (user : PyUser) (current_password new_password : String) (entropy : Nat) :
    (verify_password bcryptCore current_password user.hashed_password = false →
      change_password bcryptCore user current_password new_password entropy
        = (.error ⟨400, "Incorrect current password", []⟩, user)) ∧
    (verify_password bcryptCore current_password user.hashed_password = true →
      change_password bcryptCore user current_password new_password entropy
        = (.ok "Password changed successfully",
           { user with hashed_password :=
               get_password_hash bcryptCore new_password entropy })) := by
  constructor
  · intro h; simp [change_password, h]
  · intro h; simp [change_password, h]

/-- Witness for C6: with a digest of `"admin123"` stored, a wrong old
password leaves the row unchanged and returns the 400, and the correct old
password rewrites the digest. -/
theorem c6_change_password_guard_witness :
    change_password sampleCore sampleAdmin "bad" "npw" 7
      = (.error ⟨400, "Incorrect current password", []⟩, sampleAdmin) ∧
    change_password sampleCore sampleAdmin "admin123" "npw" 7
      = (.ok "Password changed successfully",
         { sampleAdmin with
            hashed_password := get_password_hash sampleCore "npw" 7 }) :=
  ⟨(c6_change_password_guard sampleCore sampleAdmin "bad" "npw" 7).1
      (by decide),
   (c6_change_password_guard sampleCore sampleAdmin "admin123" "npw" 7).2
      (by decide)⟩

/-- A user found by `get_user_by_username` has the queried username. -/
theorem get_user_by_username_eq (db : List PyUser) (s : String) (u : PyUser)
    (h : get_user_by_username db s = some u) : u.username = s := by
  unfold get_user_by_username at h
  have hb := List.find?_some h
  simpa using hb

/-- C7: two passwords whose UTF-8 encodings agree on the first 72 bytes but
differ beyond the limit are treated as identical: verifying one against the
hash of the other succeeds, because both hashing and verification truncate
the encoded password to 72 bytes. -/
theorem c7_truncation_collision (bcryptCore : Nat → Nat → List Nat → List Nat)
    (p1 p2 : String) (entropy : Nat)
    (hagree : (utf8Encode p1).take 72 = (utf8Encode p2).take 72)
    (_hdiff : utf8Encode p1 ≠ utf8Encode p2) :
    verify_password bcryptCore p1 (get_password_hash bcryptCore p2 entropy)
      = true := by
  have ht : truncate_to_72_bytes p1 = truncate_to_72_bytes p2 := by
    rw [truncate_eq_take, truncate_eq_take, hagree]
  have hle : ¬ (truncate_to_72_bytes p2).length > 72 := by
    have := truncate_length_le p2; omega
  simp [verify_password, get_password_hash, bcrypt_hashpw, bcrypt_checkpw,
    ht, hle]

/-- Witness for C7: the 73-byte passwords `72 × 'a' ++ "b"` and
`72 × 'a' ++ "c"` verify against each other's hashes. -/
theorem c7_truncation_collision_witness :
    verify_password sampleCore longPasswordA
      (get_password_hash sampleCore longPasswordB 3) = true :=
  c7_truncation_collision sampleCore longPasswordA longPasswordB 3
    (by decide) (by decide)

/-- C8: refreshing with a valid (correctly signed, unexpired,
resolvable-subject) refresh token returns a new access/refresh pair whose
subject equals the old token's subject, and each new token decodes
successfully under its own secret until its own expiry, independently of the
original pair. -/
theorem c8_refresh_rotation (p : JWTPayload) (s : String) (db : List PyUser)
    (u : PyUser) (now : Nat)
    (hsub : p.sub = some s) (htype : p.type = some "refresh")
    (hexp : now < p.exp) (hu : get_user_by_username db s = some u) :
    refresh_endpoint (.signed p REFRESH_SECRET_KEY) db now
      = .ok ⟨create_access_token (some s) now
               (some (ACCESS_TOKEN_EXPIRE_MINUTES * 60)),
             create_refresh_token (some s) now
               (some (REFRESH_TOKEN_EXPIRE_DAYS * 86400)),
             "bearer"⟩ ∧
    (∀ t, t < now + ACCESS_TOKEN_EXPIRE_MINUTES * 60 →
      jwt_decode
          (create_access_token (some s) now
            (some (ACCESS_TOKEN_EXPIRE_MINUTES * 60))) SECRET_KEY t
        = .ok ⟨some s, some "access",
               now + ACCESS_TOKEN_EXPIRE_MINUTES * 60⟩) ∧
    (∀ t, t < now + REFRESH_TOKEN_EXPIRE_DAYS * 86400 →
      jwt_decode
          (create_refresh_token (some s) now
            (some (REFRESH_TOKEN_EXPIRE_DAYS * 86400))) REFRESH_SECRET_KEY t
        = .ok ⟨some s, some "refresh",
               now + REFRESH_TOKEN_EXPIRE_DAYS * 86400⟩) := by
  have husr : u.username = s := get_user_by_username_eq db s u hu
  refine ⟨?_, ?_, ?_⟩
  · unfold refresh_endpoint
    rw [if_neg (by simp)]
    unfold get_current_user_from_refresh_token
    simp [jwt_decode, Nat.not_le.mpr hexp, hsub, htype, hu, husr]
  · intro t ht
    simp [create_access_token, jwt_encode, jwt_decode, Nat.not_le.mpr ht]
  · intro t ht
    simp [create_refresh_token, jwt_encode, jwt_decode, Nat.not_le.mpr ht]

/-- Witness for C8: refreshing with a valid refresh token for `"admin"`
yields the rotated pair for subject `"admin"`. -/
theorem c8_refresh_rotation_witness :
    refresh_endpoint
        (.signed ⟨some "admin", some "refresh", 604800⟩ REFRESH_SECRET_KEY)
        [sampleAdmin] 0
      = .ok ⟨create_access_token (some "admin") 0
               (some (ACCESS_TOKEN_EXPIRE_MINUTES * 60)),
             create_refresh_token (some "admin") 0
               (some (REFRESH_TOKEN_EXPIRE_DAYS * 86400)),
             "bearer"⟩ :=
  (c8_refresh_rotation ⟨some "admin", some "refresh", 604800⟩ "admin"
    [sampleAdmin] sampleAdmin 0 rfl rfl (by decide) (by decide)).1

/-- Counterexample to C9: two invocations of `get_password_hash` on the same
password do NOT produce the same digest — `bcrypt.gensalt` draws fresh
randomness on each call, and the digest embeds that salt (here, salts 0
and 1 for the password `"a"`). -/
theorem c9_counterexample :
    get_password_hash sampleCore "a" 0 ≠ get_password_hash sampleCore "a" 1 :=
  by decide

/-- C9 amended: `get_password_hash` is deterministic as a function of the
password and the salt drawn by `gensalt` — two invocations agree exactly when
the drawn salts agree — and every digest it produces is well-formed with the
cost factor fixed at 12 rounds and the drawn salt embedded. -/
theorem c9_amended_deterministic
    (bcryptCore : Nat → Nat → List Nat → List Nat) (p : String)
    (e1 e2 : Nat) :
    (get_password_hash bcryptCore p e1 = get_password_hash bcryptCore p e2
      ↔ e1 = e2) ∧
    (∃ body, get_password_hash bcryptCore p e1
      = .wellFormed ⟨12, e1, body⟩) := by
  have hle : ¬ (truncate_to_72_bytes p).length > 72 := by
    have := truncate_length_le p; omega
  have hform : ∀ e, get_password_hash bcryptCore p e
      = .wellFormed ⟨12, e, bcryptCore 12 e (truncate_to_72_bytes p)⟩ := by
    intro e
    simp [get_password_hash, bcrypt_hashpw, hle]
  refine ⟨?_, ⟨_, hform e1⟩⟩
  rw [hform e1, hform e2]
  constructor
  · intro h
    exact congrArg BcryptDigest.salt (DigestStr.wellFormed.inj h)
  · rintro rfl
    rfl

/-- C10: a valid, unexpired access token for a deactivated user is rejected
by the active-user gate (and hence by every protected endpoint, e.g. `/me`)
with the 400 "Inactive user" error, which is distinct from the 401
unauthorized error, even though token decoding and subject resolution
succeed. -/
theorem c10_inactive_gate (token : JWTToken) (db : List PyUser) (now : Nat)
    (u : PyUser)
    (hok : get_current_user token db now = .ok u)
    (hina : u.is_active = false) :
    get_current_active_user token db now = .error ⟨400, "Inactive user", []⟩ ∧
    get_current_user_info token db now = .error ⟨400, "Inactive user", []⟩ ∧
    (⟨400, "Inactive user", []⟩ : HTTPError) ≠ credentials_exception := by
  have h : get_current_active_user token db now
      = .error ⟨400, "Inactive user", []⟩ := by
    simp [get_current_active_user, hok, hina]
  exact ⟨h, h, by decide⟩

/-- Witness for C10: a valid access token for the deactivated `"bob"` is
rejected with the 400 "Inactive user" error. -/
theorem c10_inactive_gate_witness :
    get_current_user_info (.signed ⟨some "bob", some "access", 900⟩ SECRET_KEY)
        [inactiveUser] 0
      = .error ⟨400, "Inactive user", []⟩ :=
  (c10_inactive_gate (.signed ⟨some "bob", some "access", 900⟩ SECRET_KEY)
    [inactiveUser] 0 inactiveUser rfl rfl).2.1
